import Mathlib

/-!
Verification of the platform-configuration header `sqlite3/sqlite_cfg.h`.

The header is embedded literally, line by line, and a parser for
`#define NAME [VALUE]` lines (written over character lists so that every
step is kernel-computable) recovers the flat flag mapping that the file
denotes.  All claims are settled against these definitions.
-/

namespace SqliteCfg

/-- The literal contents of `sqlite3/sqlite_cfg.h`, one entry per physical
line.  The file ends without a trailing newline, so it has 30 physical
lines separated by 29 newline characters. -/
def sqlite_cfg_h : List String :=
  [ "// Platform Configuration"
  , ""
  , "#define SQLITE_OS_OTHER 1"
  , "#define SQLITE_BYTEORDER 1234"
  , ""
  , "#define HAVE_ISNAN 1"
  , "#define HAVE_USLEEP 1"
  , "#define HAVE_MALLOC_USABLE_SIZE 1"
  , ""
  , "// Recommended Options"
  , ""
  , "#define SQLITE_DQS 0"
  , "#define SQLITE_THREADSAFE 0"
  , "#define SQLITE_DEFAULT_MEMSTATUS 0"
  , "#define SQLITE_DEFAULT_WAL_SYNCHRONOUS 1"
  , "#define SQLITE_LIKE_DOESNT_MATCH_BLOBS"
  , "#define SQLITE_MAX_EXPR_DEPTH 0"
  , "#define SQLITE_OMIT_DECLTYPE"
  , "#define SQLITE_OMIT_DEPRECATED"
  , "#define SQLITE_OMIT_PROGRESS_CALLBACK"
  , "#define SQLITE_OMIT_SHARED_CACHE"
  , "#define SQLITE_OMIT_AUTOINIT"
  , "#define SQLITE_USE_ALLOCA"
  , ""
  , "// Need this to access WAL databases without the use of shared memory."
  , "#define SQLITE_DEFAULT_LOCKING_MODE 1"
  , "// Go uses UTF-8 everywhere."
  , "#define SQLITE_OMIT_UTF16"
  , "// Remove some testing code."
  , "#define SQLITE_UNTESTABLE" ]

/-- The leading characters of a preprocessor definition line. -/
def defineKeyword : List Char := ['#', 'd', 'e', 'f', 'i', 'n', 'e', ' ']

/-- Drop an expected leading character sequence, or fail. -/
def dropLeading : List Char → List Char → Option (List Char)
  | [], l => some l
  | _ :: _, [] => none
  | p :: ps, c :: cs => if c = p then dropLeading ps cs else none

/-- Split a character list at its first space: the part before the space and,
if a space occurs, the part after it. -/
def splitFirstSpace : List Char → List Char × Option (List Char)
  | [] => ([], none)
  | c :: cs =>
    if c = ' ' then ([], some cs)
    else
      let r := splitFirstSpace cs
      (c :: r.1, r.2)

/-- Parse one line as a preprocessor definition `#define NAME` or
`#define NAME VALUE`, returning the flag name together with its optional
value text. -/
def parseDefine (l : List Char) : Option (String × Option String) :=
  match dropLeading defineKeyword l with
  | none => none
  | some rest =>
    match splitFirstSpace rest with
    | (n, none) => some (⟨n⟩, none)
    | (n, some v) => some (⟨n⟩, some ⟨v⟩)

/-- A line is a definition line when it parses as `#define NAME [VALUE]`. -/
def isDefineLine (l : String) : Bool := (parseDefine l.data).isSome

/-- A line is a comment line when it starts with `//`. -/
def isCommentLine (l : String) : Bool :=
  match l.data with
  | '/' :: '/' :: _ => true
  | _ => false

/-- A line is blank when it has no characters. -/
def isBlankLine (l : String) : Bool := l.data = []

/-- The flat flag mapping denoted by the file: every `#define` line, in
order, as a pair of flag name and optional value text. -/
def cfgEntries : List (String × Option String) :=
  sqlite_cfg_h.filterMap (fun l => parseDefine l.data)

/-- Look a flag up in the mapping: `none` when the flag is not defined,
`some none` when it is defined with no value, `some (some v)` when it is
defined with value text `v`. -/
def flagValue (n : String) : Option (Option String) :=
  (cfgEntries.find? (fun e => e.1 = n)).map (fun e => e.2)

/-- Parse a nonempty all-digit character list as a decimal numeral. -/
def parseNat (l : List Char) : Option Nat :=
  if l ≠ [] ∧ l.all Char.isDigit then
    some (l.foldl (fun acc c => 10 * acc + (c.toNat - 48)) 0)
  else none

/-- The integer value of a flag, when the flag is defined with a value that
is a decimal numeral. -/
def flagNat (n : String) : Option Nat :=
  match flagValue n with
  | some (some v) => parseNat v.data
  | _ => none

/-- Modelled from the spec: the SQLite engine that interprets these flags is
absent from the supplied source, so which option the spec ties to the default
journal mode being WAL (with synchronous level 1) is taken from the spec's
words: the WAL journal option of this file, `SQLITE_DEFAULT_WAL_SYNCHRONOUS`. -/
def selectsWALJournal (n : String) : Bool := n == "SQLITE_DEFAULT_WAL_SYNCHRONOUS"

/-- Modelled from the spec: runtime relevance of a flag is a property of the
absent engine; spec section 5 records `SQLITE_THREADSAFE 0` as the single
recorded runtime-relevant flag. -/
def isRuntimeRelevant (n : String) : Bool := n == "SQLITE_THREADSAFE"

/-- The lines of the `Recommended Options` block: everything after the
`// Recommended Options` comment line up to the next comment line. -/
def recommendedOptions : List String :=
  ((sqlite_cfg_h.dropWhile (fun l => l ≠ "// Recommended Options")).drop 1).takeWhile
    (fun l => !(isCommentLine l))

/-- The flag entries of the `Recommended Options` block. -/
def recommendedEntries : List (String × Option String) :=
  recommendedOptions.filterMap (fun l => parseDefine l.data)

/-- C1: the flag mapping contains an entry selecting the WAL default journal
mode (modelled from the spec, the engine being absent: the entry
`SQLITE_DEFAULT_WAL_SYNCHRONOUS`), and that entry is defined with integer
value 1. -/
theorem wal_synchronous_one :
    cfgEntries.any (fun e => selectsWALJournal e.1) = true ∧
    flagNat "SQLITE_DEFAULT_WAL_SYNCHRONOUS" = some 1 := by decide

/-- C2 counterexample: the claim that the file has exactly 29 lines, all of
them `#define` definitions, is false: the first line of the file is the
comment `// Platform Configuration`, which is not a definition (and the file
has 30 physical lines). -/
theorem not_all_lines_are_defines :
    sqlite_cfg_h.get? 0 = some "// Platform Configuration" ∧
    isDefineLine "// Platform Configuration" = false ∧
    ¬ (sqlite_cfg_h.length = 29 ∧ sqlite_cfg_h.all isDefineLine = true) := by decide

/-- C2 amended: the file consists of 30 physical lines (29 newline-terminated
and a final unterminated one); 20 of them are preprocessor definitions of the
form `#define NAME [VALUE]`, 5 are comment lines and 5 are blank lines, and
every line is one of these three kinds. -/
theorem file_line_inventory :
    sqlite_cfg_h.length = 30 ∧
    (sqlite_cfg_h.filter isDefineLine).length = 20 ∧
    (sqlite_cfg_h.filter isCommentLine).length = 5 ∧
    (sqlite_cfg_h.filter isBlankLine).length = 5 ∧
    sqlite_cfg_h.all
      (fun l => isDefineLine l || isCommentLine l || isBlankLine l) = true := by
  decide

/-- C3: `SQLITE_THREADSAFE` is defined with integer value 0, and it is the
only flag of the mapping that is runtime-relevant (runtime relevance being
modelled from the spec, the engine being absent). -/
theorem threadsafe_zero_sole_runtime_flag :
    flagNat "SQLITE_THREADSAFE" = some 0 ∧
    (cfgEntries.filter (fun e => isRuntimeRelevant e.1)).map (fun e => e.1) =
      ["SQLITE_THREADSAFE"] := by decide

/-- C4: `SQLITE_OMIT_UTF16` and `SQLITE_OMIT_SHARED_CACHE` are both present
in the mapping as presence-only flags, defined with no value. -/
theorem omit_utf16_and_shared_cache :
    flagValue "SQLITE_OMIT_UTF16" = some none ∧
    flagValue "SQLITE_OMIT_SHARED_CACHE" = some none := by decide

/-- C5: `HAVE_ISNAN`, `HAVE_USLEEP` and `HAVE_MALLOC_USABLE_SIZE` are each
defined with integer value 1. -/
theorem have_capabilities_one :
    flagNat "HAVE_ISNAN" = some 1 ∧
    flagNat "HAVE_USLEEP" = some 1 ∧
    flagNat "HAVE_MALLOC_USABLE_SIZE" = some 1 := by decide

/-- C6: `SQLITE_DEFAULT_LOCKING_MODE` is defined with integer value 1, under
the comment explaining that this enables WAL access without shared memory. -/
theorem default_locking_mode_one :
    flagNat "SQLITE_DEFAULT_LOCKING_MODE" = some 1 ∧
    sqlite_cfg_h.get? 24 =
      some "// Need this to access WAL databases without the use of shared memory." := by
  decide

/-- C7: every entry of the flag mapping has a value that is either absent
(a presence-only marker) or a decimal integer numeral; in particular every
entry's value shape is one of the three permitted shapes (integer,
string/enumerated, absent) and no entry has any other shape. -/
theorem value_shapes :
    cfgEntries.all
      (fun e => match e.2 with
        | none => true
        | some v => (parseNat v.data).isSome) = true := by decide

/-- C8: no flag name occurs in two definition lines: the names of the
mapping's entries are pairwise distinct, so the flag list is a well-defined
function from name to value. -/
theorem flag_names_nodup :
    (cfgEntries.map (fun e => e.1)).Nodup := by decide

/-- C9: `SQLITE_OS_OTHER` is defined with integer value 1 and
`SQLITE_BYTEORDER` with integer value 1234. -/
theorem os_other_and_byteorder :
    flagNat "SQLITE_OS_OTHER" = some 1 ∧
    flagNat "SQLITE_BYTEORDER" = some 1234 := by decide

/-- C10: in the `Recommended Options` block every integer-valued flag other
than `SQLITE_DEFAULT_WAL_SYNCHRONOUS` has value 0; in particular
`SQLITE_DQS`, `SQLITE_THREADSAFE`, `SQLITE_DEFAULT_MEMSTATUS` and
`SQLITE_MAX_EXPR_DEPTH` are all 0. -/
theorem recommended_integer_flags_zero :
    recommendedEntries.all
      (fun e =>
        e.1 == "SQLITE_DEFAULT_WAL_SYNCHRONOUS" ||
        (match e.2 with
          | none => true
          | some v => parseNat v.data == some 0)) = true ∧
    flagNat "SQLITE_DQS" = some 0 ∧
    flagNat "SQLITE_THREADSAFE" = some 0 ∧
    flagNat "SQLITE_DEFAULT_MEMSTATUS" = some 0 ∧
    flagNat "SQLITE_MAX_EXPR_DEPTH" = some 0 := by decide

end SqliteCfg
